import Mathlib

/-!
Shallow embedding of the deployment script (src/deploy.py) and verification
of its specified properties.  Filesystem trees are modelled as lists of
files (path components plus content); external effects (git subprocesses,
copy and remove failures) are supplied by explicit environment records.
-/

namespace GithubDeploy

/-- Relative filesystem path as a list of components. -/
abbrev FsPath := List String

/-- One file in a directory tree: its relative path and its byte content. -/
structure FileEntry where
  path : FsPath
  content : String
deriving DecidableEq

/-- A directory tree, as the list of files it contains.  An existing but
empty directory is the empty list; a missing directory is modelled as
none at the use sites. -/
abbrev Tree := List FileEntry

/-- Fuel-bounded glob matcher for fnmatch-style patterns, as used by
shutil.ignore_patterns: star matches any run of characters, question mark
matches one character, everything else is literal. -/
def fnmatchAux : Nat → List Char → List Char → Bool
  | 0, _, _ => false
  | _ + 1, [], [] => true
  | _ + 1, [], _ :: _ => false
  | fuel + 1, c :: ps, [] => c == '*' && fnmatchAux fuel ps []
  | fuel + 1, c :: ps, d :: rest =>
      if c == '*' then fnmatchAux fuel ps (d :: rest) || fnmatchAux fuel (c :: ps) rest
      else if c == '?' then fnmatchAux fuel ps rest
      else c == d && fnmatchAux fuel ps rest

/-- Glob match of a pattern against a single name (fnmatch.fnmatch). -/
def fnmatch (pattern name : String) : Bool :=
  fnmatchAux (pattern.data.length + name.data.length + 1) pattern.data name.data

/-- Whether some pattern of the list matches the name (shutil.ignore_patterns
tests each name in a directory against every pattern). -/
def matchesAnyPattern (patterns : List String) (name : String) : Bool :=
  patterns.any (fun p => fnmatch p name)

/-- A path is excluded when any of its components matches a pattern:
shutil.copytree applies the ignore callable at every directory level, and
ignoring a directory name prunes its whole subtree. -/
def excluded (patterns : List String) (p : FsPath) : Bool :=
  p.any (fun comp => matchesAnyPattern patterns comp)

/-- Effect of shutil.copytree with ignore=shutil.ignore_patterns(patterns):
the copy holds exactly the non-excluded files of the source. -/
def copytree_ignore (patterns : List String) (t : Tree) : Tree :=
  t.filter (fun f => !(excluded patterns f.path))

/-- The single-quote character as a string (used to render Python messages). -/
def sq : String := String.singleton (Char.ofNat 39)

/-- Fuel-bounded engine of Python str.replace: scan left to right, replace
every non-overlapping occurrence of old.  Intended for nonempty old. -/
def pyReplaceAux (old new : List Char) : Nat → List Char → List Char
  | 0, s => s
  | _ + 1, [] => []
  | fuel + 1, c :: rest =>
      if old.isPrefixOf (c :: rest) then new ++ pyReplaceAux old new fuel ((c :: rest).drop old.length)
      else c :: pyReplaceAux old new fuel rest

/-- Python str.replace(old, new): replaces every occurrence of old. -/
def pyReplace (s old new : String) : String :=
  String.mk (pyReplaceAux old.data new.data s.data.length s.data)

/-- os.path.basename for slash-separated paths: the part after the last
slash. -/
def basename (s : String) : String :=
  String.mk ((s.data.reverse.takeWhile (fun c => c != '/')).reverse)

/-- os.path.join for a base directory and a relative component. -/
def pathJoin (a b : String) : String := a ++ "/" ++ b

/-- The repository name derived in deploy_repo and main:
os.path.basename(git_url).replace(".git", ""). -/
def repo_name_of (gitUrl : String) : String :=
  pyReplace (basename gitUrl) ".git" ""

/-- Spec-side alternative for comparison: strip only a trailing ".git"
suffix from a name, leaving any interior occurrence alone. -/
def stripTrailingGitSuffix (s : String) : String :=
  if ".git".data.isSuffixOf s.data then String.mk (s.data.take (s.data.length - 4)) else s

/-- The authenticated URL built by branch_exists and clone_repo:
git_url.replace("https://", "https://TOKEN@"). -/
def authUrl (gitUrl token : String) : String :=
  pyReplace gitUrl "https://" ("https://" ++ token ++ "@")

/-- Python repr of a list of strings, as it appears when a subprocess
command list is interpolated into an error message. -/
def pyReprStrList (xs : List String) : String :=
  "[" ++ String.intercalate ", " (xs.map (fun x => sq ++ x ++ sq)) ++ "]"

/-- Message of subprocess.CalledProcessError(code, cmd) as produced by
str(e): the command list and the exit status. -/
def calledProcessErrorStr (cmd : List String) (code : Nat) : String :=
  "Command " ++ sq ++ pyReprStrList cmd ++ sq ++ " returned non-zero exit status " ++ toString code ++ "."

/-- Substring test on character lists. -/
def containsSub (hay needle : List Char) : Bool :=
  (List.range (hay.length + 1)).any (fun i => needle.isPrefixOf (hay.drop i))

/-- Substring test on strings. -/
def strContains (hay needle : String) : Bool :=
  containsSub hay.data needle.data

/-- Split a character list at newline characters (file line iteration). -/
def splitLinesAux : List Char → List Char → List (List Char)
  | [], acc => [acc.reverse]
  | c :: rest, acc =>
      if c == '\n' then acc.reverse :: splitLinesAux rest []
      else splitLinesAux rest (c :: acc)

/-- Split a string into its lines, newline separators removed. -/
def splitLines (s : List Char) : List (List Char) := splitLinesAux s []

/-- Whitespace recognized by Python str.strip. -/
def isSpaceChar (c : Char) : Bool := c == ' ' || c == '\t' || c == '\n' || c == '\r'

/-- Python str.strip: drop whitespace at both ends. -/
def stripChars (s : List Char) : List Char :=
  ((s.dropWhile isSpaceChar).reverse.dropWhile isSpaceChar).reverse

/-- Parsing step of read_gitignore: keep line.strip() for every line that
strips to something nonempty and does not itself start with a hash. -/
def parseGitignore (content : String) : List String :=
  (splitLines content.data).filterMap (fun raw =>
    let s := stripChars raw
    if s.isEmpty || raw.head? == some '#' then none else some (String.mk s))

/-- read_gitignore(path): patterns from the .gitignore file at the root of
the destination tree, or the empty list when the directory or the file is
missing. -/
def read_gitignore (dest : Option Tree) : List String :=
  match dest with
  | none => []
  | some t =>
      match t.find? (fun f => f.path == [".gitignore"]) with
      | none => []
      | some f => parseGitignore f.content

/-- Events of the retry loop: one invocation of the wrapped operation, or
one fixed-delay sleep (time.sleep in the except handler). -/
inductive REvent
  | invoke (n : Nat)
  | sleepDelay
deriving DecidableEq

/-- Engine of retry_operation: the loop over the attempt indices of
range(max_retries).  A successful attempt returns immediately; a failed
attempt logs, sleeps, and continues, the sleep occurring after every
failed attempt including the last. -/
def retryGo (op : Nat → Bool) : List Nat → Bool × List REvent
  | [] => (false, [])
  | a :: rest =>
      if op a then (true, [REvent.invoke a])
      else
        let r := retryGo op rest
        (r.1, REvent.invoke a :: REvent.sleepDelay :: r.2)

/-- retry_operation(operation, max_retries): true when some attempt
succeeds, false after the final failed attempt, together with its trace of
invocations and sleeps. -/
def retry_operation (op : Nat → Bool) (maxRetries : Nat) : Bool × List REvent :=
  retryGo op (List.range maxRetries)

/-- Number of operation invocations recorded in a retry trace. -/
def invokeCount (evs : List REvent) : Nat :=
  (evs.filter (fun e => match e with | REvent.invoke _ => true | _ => false)).length

/-- Index of the first successful attempt among maxRetries attempts, when
one exists: the attempt on which retry_operation returns true. -/
def firstSuccess (ok : Nat → Bool) (maxRetries : Nat) : Option Nat :=
  (List.range maxRetries).find? ok

/-- Severity of a record sent to the logging sink. -/
inductive LogLevel
  | info
  | error
deriving DecidableEq

/-- One record written to the logging sink (file handler of the module
logger): a level and a message. -/
structure LogRecord where
  level : LogLevel
  message : String
deriving DecidableEq

/-- Filesystem effects of the backup operation, in order: the removal of an
existing backup directory, then one shutil.copytree attempt. -/
inductive CapEvent
  | deleteBackup
  | copyAttempt
deriving DecidableEq

/-- External behavior of the copy inside backup_artifacts: whether the
copytree of attempt n succeeds, and when it fails, how many files it had
already copied before erroring. -/
structure CaptureEnv where
  copyOk : Nat → Bool
  copyPartialCount : Nat → Nat

/-- The ignore set of backup_artifacts:
shutil.ignore_patterns(".git", ".gitignore", *ignore_patterns). -/
def backupFilter (ignorePatterns : List String) (t : Tree) : Tree :=
  copytree_ignore (".git" :: ".gitignore" :: ignorePatterns) t

/-- The ignore set of restore_backup:
shutil.ignore_patterns(".git", ".gitignore"). -/
def restoreFilter (t : Tree) : Tree :=
  copytree_ignore [".git", ".gitignore"] t

/-- Retry loop of backup_artifacts over its inner operation, along the
attempt indices of range(max_retries).  Each attempt first removes the
backup directory when it exists, then runs copytree; a failed copytree
leaves a partially copied prefix behind, which the next attempt deletes
again.  Returns the overall success flag, the final state of the backup
directory, and the ordered filesystem events. -/
def backupGo (env : CaptureEnv) (src : Tree) (pats : List String) :
    List Nat → Option Tree → Bool × Option Tree × List CapEvent
  | [], st => (false, st, [])
  | attempt :: rest, st =>
      let evs1 : List CapEvent := if st.isSome then [CapEvent.deleteBackup] else []
      if env.copyOk attempt then
        (true, some (backupFilter pats src), evs1 ++ [CapEvent.copyAttempt])
      else
        let partialTree := (backupFilter pats src).take (env.copyPartialCount attempt)
        let r := backupGo env src pats rest (some partialTree)
        (r.1, r.2.1, evs1 ++ [CapEvent.copyAttempt] ++ r.2.2)

/-- backup_artifacts(destination_path, backup_repo_path, ignore_patterns):
retried capture of the destination tree into the backup directory,
starting from the prior state of the backup directory. -/
def backup_artifacts (env : CaptureEnv) (src : Tree) (pats : List String) (backup0 : Option Tree) :
    Bool × Option Tree × List CapEvent :=
  backupGo env src pats (List.range 3) backup0

/-- External behavior of restore_backup: whether attempt n of its retried
operation succeeds, and the state the destination is left in when every
attempt fails (the code gives no guarantee about it). -/
structure RestoreEnv where
  restoreOk : Nat → Bool
  restoreFailDest : Option Tree

/-- Observable outcome of restore_backup: the destination state, the log
records and printed lines it produced, and whether the retried operation
succeeded (the function itself returns nothing to its caller). -/
structure RestoreOut where
  dest : Option Tree
  logs : List LogRecord
  prints : List String
  ok : Bool
deriving DecidableEq

/-- restore_backup(backup_repo_path, destination_path): the retried
operation deletes the destination when present and copies the backup tree
into it, skipping .git and .gitignore.  On exhaustion it logs and prints an
error; success logs and prints the restored-from message. -/
def restore_backup (env : RestoreEnv) (backupTree : Tree) (backupPath destPath : String) :
    RestoreOut :=
  let startLog : LogRecord := ⟨LogLevel.info, "Starting restore_backup function."⟩
  match firstSuccess env.restoreOk 3 with
  | some _ =>
      { dest := some (restoreFilter backupTree)
        logs := [startLog, ⟨LogLevel.info, "Backup restored from " ++ backupPath ++ " to " ++ destPath⟩]
        prints := ["Backup restored from " ++ backupPath ++ " to " ++ destPath]
        ok := true }
  | none =>
      { dest := env.restoreFailDest
        logs := [startLog, ⟨LogLevel.error, "Error restoring backup after multiple attempts."⟩]
        prints := ["Error restoring backup after multiple attempts."]
        ok := false }

/-- External behavior of the remote queries in branch_exists: whether
git ls-remote lists the branch, whether the subprocess itself fails, and
its exit status in that case. -/
structure RemoteEnv where
  branchOnRemote : Bool
  lsRemoteFails : Bool
  lsRemoteCode : Nat

/-- branch_exists(git_url, branch, github_token): builds the authenticated
URL and runs git ls-remote.  A subprocess failure is logged, with the
stringified CalledProcessError embedding the full command, and reported as
false; otherwise the answer is whether the output was nonempty. -/
def branch_exists (env : RemoteEnv) (gitUrl branch token : String) : Bool × List LogRecord :=
  let au := authUrl gitUrl token
  let logs0 : List LogRecord := [⟨LogLevel.info, "Starting branch_exists function."⟩]
  if env.lsRemoteFails then
    (false, logs0 ++ [⟨LogLevel.error, "Error checking branch existence: " ++
      calledProcessErrorStr ["git", "ls-remote", "--heads", au, branch] env.lsRemoteCode⟩])
  else
    (env.branchOnRemote, logs0)

/-- External behavior of the clone step: the remote query environment,
whether git clone into an empty directory fails with which exit status,
the working tree a successful clone produces, and the contents left in the
target when a clone subprocess fails. -/
structure CloneEnv where
  remote : RemoteEnv
  cloneFails : Bool
  cloneCode : Nat
  cloneTree : Tree
  cloneFailPartial : Tree

/-- Result of clone_repo as seen by its caller: normal return, or a raised
exception carrying the message str(e) used by the caller. -/
inductive CloneResult
  | ok
  | err (msg : String)
deriving DecidableEq

/-- Whether a clone result is a raised exception. -/
def CloneResult.isErr : CloneResult → Bool
  | CloneResult.ok => false
  | CloneResult.err _ => true

/-- clone_repo(git_url, temp_clone_path, branch, github_token): checks the
branch, creates the target directory when missing, and runs git clone.
A clone into a nonempty directory fails (git refuses an existing nonempty
destination); a missing branch raises ValueError.  Returns the call
result, the state of the target directory, and the log records. -/
def clone_repo (env : CloneEnv) (gitUrl branch token : String) (temp0 : Option Tree)
    (tempPath : String) : CloneResult × Option Tree × List LogRecord :=
  let logs0 : List LogRecord := [⟨LogLevel.info, "Starting clone_repo function."⟩]
  let bres := branch_exists env.remote gitUrl branch token
  if bres.1 then
    let temp1 : Tree := match temp0 with | none => [] | some t => t
    let cloneCmd : List String :=
      ["git", "clone", "-b", branch, "--single-branch", authUrl gitUrl token, tempPath]
    if !temp1.isEmpty then
      let msg := calledProcessErrorStr cloneCmd 128
      (CloneResult.err msg, some temp1, logs0 ++ bres.2 ++
        [⟨LogLevel.error, "Error cloning repository: subprocess error occurred - " ++ msg⟩])
    else if env.cloneFails then
      let msg := calledProcessErrorStr cloneCmd env.cloneCode
      (CloneResult.err msg, some env.cloneFailPartial, logs0 ++ bres.2 ++
        [⟨LogLevel.error, "Error cloning repository: subprocess error occurred - " ++ msg⟩])
    else
      (CloneResult.ok, some env.cloneTree, logs0 ++ bres.2 ++
        [⟨LogLevel.info, "Repository cloned successfully into " ++ tempPath ++ " on branch " ++
          sq ++ branch ++ sq ++ "."⟩])
  else
    (CloneResult.err ("The branch " ++ sq ++ branch ++ sq ++ " does not exist in the remote repository."),
     temp0, logs0 ++ bres.2 ++
      [⟨LogLevel.error, "Error: The branch " ++ sq ++ branch ++ sq ++ " does not exist in the remote repository."⟩])

/-- Effect of make_git_writable_and_remove(temp/.git): the .git subtree is
removed from the staged working tree. -/
def stripGitDir (t : Tree) : Tree :=
  t.filter (fun f => f.path.head? != some ".git")

/-- State of the three directories deploy_repo works on: the live
destination, the backup, and the temporary staging clone. -/
structure FsState where
  dest : Option Tree
  backup : Option Tree
  temp : Option Tree
deriving DecidableEq

/-- Observable outcome of a deploy_repo run: final directory states, log
records, printed lines, and whether restore_backup was invoked. -/
structure DeployOut where
  fs : FsState
  logs : List LogRecord
  prints : List String
  restoreInvoked : Bool
deriving DecidableEq

/-- External behavior of a whole deployment run: environment checks, the
clone and backup environments, the retried rmtree of the destination, the
metadata removal, the final copy into the destination, the removal of the
staging directory, and the restore environment.  Failure states the code
does not constrain are supplied explicitly. -/
structure DeployEnv where
  gitInstalled : Bool
  baseDestIsDir : Bool
  baseBackupIsDir : Bool
  clone : CloneEnv
  backupEnv : CaptureEnv
  cleanOk : Nat → Bool
  cleanFailPartial : Tree
  metadataOk : Bool
  metadataErrMsg : String
  metadataFailTemp : Tree
  finalCopyOk : Bool
  finalCopyErrMsg : String
  finalCopyFailDest : Tree
  tempRemoveOk : Bool
  tempRemoveErrMsg : String
  tempRemoveFailTemp : Tree
  restoreOk : Nat → Bool
  restoreFailDest : Option Tree

/-- Result of the shared staging-and-swap sequence (makedirs, clone_repo,
metadata removal, copy to destination, removal of the staging directory):
the raised error message when one step failed, the destination and staging
states, and the clone log records. -/
structure StageResult where
  err : Option String
  dest : Option Tree
  temp : Option Tree
  logs : List LogRecord
deriving DecidableEq

/-- The body shared by both branches of deploy_repo (lines 169 to 177 and
190 to 198 of the script): os.makedirs(destination_path), clone_repo into
the staging path, make_git_writable_and_remove, copytree into the
destination ignoring .git and .gitignore, then rmtree of the staging
path.  The first failing step raises; later steps do not run. -/
def stagingAndSwap (env : DeployEnv) (temp0 : Option Tree)
    (gitUrl branch token tempPath : String) : StageResult :=
  let dest1 : Option Tree := some []
  let cr := clone_repo env.clone gitUrl branch token temp0 tempPath
  match cr.1 with
  | CloneResult.err e => { err := some e, dest := dest1, temp := cr.2.1, logs := cr.2.2 }
  | CloneResult.ok =>
      if env.metadataOk then
        let tempClean := stripGitDir (cr.2.1.getD [])
        if env.finalCopyOk then
          let dest2 : Option Tree := some (copytree_ignore [".git", ".gitignore"] tempClean)
          if env.tempRemoveOk then
            { err := none, dest := dest2, temp := none, logs := cr.2.2 }
          else
            { err := some env.tempRemoveErrMsg, dest := dest2,
              temp := some env.tempRemoveFailTemp, logs := cr.2.2 }
        else
          { err := some env.finalCopyErrMsg, dest := some env.finalCopyFailDest,
            temp := some tempClean, logs := cr.2.2 }
      else
        { err := some env.metadataErrMsg, dest := dest1,
          temp := some env.metadataFailTemp, logs := cr.2.2 }

/-- Result of the trailing rollback block of deploy_repo. -/
structure RollbackResult where
  fs : FsState
  logs : List LogRecord
  prints : List String
  invoked : Bool
deriving DecidableEq

/-- Lines 206 to 209 of the script: when rollback is needed and a directory
exists at the backup path, call restore_backup and then unconditionally
print and log the rollback-completed message. -/
def rollbackStep (env : DeployEnv) (fs1 : FsState) (backupPath destPath : String) :
    RollbackResult :=
  match fs1.backup with
  | some bt =>
      let r := restore_backup ⟨env.restoreOk, env.restoreFailDest⟩ bt backupPath destPath
      { fs := { fs1 with dest := r.dest }
        logs := r.logs ++ [⟨LogLevel.info, "Rollback completed. Backup reinstated."⟩]
        prints := r.prints ++ ["Rollback completed. Backup reinstated."]
        invoked := true }
  | none => { fs := fs1, logs := [], prints := [], invoked := false }

/-- The branch of deploy_repo taken when the destination directory already
exists: back up the destination, clean it under retry, run the staging and
swap sequence, and on an exception run the rollback block. -/
def deployExisting (env : DeployEnv) (fs0 : FsState) (destTree : Tree)
    (gitUrl branch token destPath backupPath tempPath : String) (pats : List String) :
    DeployOut :=
  let br := backup_artifacts env.backupEnv destTree pats fs0.backup
  if br.1 then
    if (firstSuccess env.cleanOk 3).isSome then
      let sr := stagingAndSwap env fs0.temp gitUrl branch token tempPath
      match sr.err with
      | none =>
          { fs := ⟨sr.dest, br.2.1, sr.temp⟩
            logs := sr.logs ++ [⟨LogLevel.info, "Deployment updated successfully for repository " ++
              gitUrl ++ " on branch " ++ branch ++ ". Backup created at " ++ backupPath ++ "."⟩]
            prints := ["Deployment updated successfully for repository " ++ gitUrl ++
              " on branch " ++ branch ++ ". Backup created at " ++ backupPath ++ "."]
            restoreInvoked := false }
      | some e =>
          let rb := rollbackStep env ⟨sr.dest, br.2.1, sr.temp⟩ backupPath destPath
          { fs := rb.fs
            logs := sr.logs ++
              [⟨LogLevel.error, "Deployment failed: " ++ e ++ ". Initiating rollback."⟩] ++ rb.logs
            prints := ["Deployment failed. Initiating rollback."] ++ rb.prints
            restoreInvoked := rb.invoked }
    else
      { fs := ⟨some env.cleanFailPartial, br.2.1, fs0.temp⟩
        logs := [⟨LogLevel.error, "Failed to clean the destination path after multiple attempts. Deployment aborted."⟩]
        prints := ["Failed to clean the destination path. Deployment aborted."]
        restoreInvoked := false }
  else
    { fs := { fs0 with backup := br.2.1 }
      logs := [⟨LogLevel.error, "Error creating backup after multiple attempts."⟩,
               ⟨LogLevel.error, "Backup failed. Deployment aborted."⟩]
      prints := ["Backup failed. Deployment aborted."]
      restoreInvoked := false }

/-- The branch of deploy_repo taken when the destination directory does not
exist: no backup is taken; the staging and swap sequence runs, and on an
exception the rollback block runs against whatever directory may already
sit at the backup path. -/
def deployFresh (env : DeployEnv) (fs0 : FsState)
    (gitUrl branch token destPath backupPath tempPath : String) : DeployOut :=
  let sr := stagingAndSwap env fs0.temp gitUrl branch token tempPath
  match sr.err with
  | none =>
      { fs := ⟨sr.dest, fs0.backup, sr.temp⟩
        logs := sr.logs ++ [⟨LogLevel.info, "Repository " ++ gitUrl ++ " cloned successfully into " ++
          destPath ++ " on branch " ++ sq ++ branch ++ sq ++ "."⟩]
        prints := ["Repository " ++ gitUrl ++ " cloned successfully into " ++ destPath ++
          " on branch " ++ sq ++ branch ++ sq]
        restoreInvoked := false }
  | some e =>
      let rb := rollbackStep env ⟨sr.dest, fs0.backup, sr.temp⟩ backupPath destPath
      { fs := rb.fs
        logs := sr.logs ++ [⟨LogLevel.error, "Deployment failed: " ++ e⟩] ++ rb.logs
        prints := ["Deployment failed."] ++ rb.prints
        restoreInvoked := rb.invoked }

/-- deploy_repo(git_url, base_destination_path, branch, github_token,
backup_base_path): derive the three paths from the repository name, verify
git and the base directories, read the ignore file of the destination, and
dispatch on whether the destination directory exists. -/
def deploy_repo (env : DeployEnv) (fs0 : FsState)
    (gitUrl baseDestinationPath branch token backupBasePath : String) : DeployOut :=
  let repoName := repo_name_of gitUrl
  let destPath := pathJoin baseDestinationPath repoName
  let backupPath := pathJoin backupBasePath repoName
  let tempPath := pathJoin baseDestinationPath (repoName ++ "_temp")
  if env.gitInstalled then
    if env.baseDestIsDir then
      if env.baseBackupIsDir then
        let pats := read_gitignore fs0.dest
        match fs0.dest with
        | some destTree =>
            deployExisting env fs0 destTree gitUrl branch token destPath backupPath tempPath pats
        | none => deployFresh env fs0 gitUrl branch token destPath backupPath tempPath
      else
        { fs := fs0
          logs := [⟨LogLevel.error, "The base backup path is not a valid directory."⟩]
          prints := ["The base backup path is not a valid directory."]
          restoreInvoked := false }
    else
      { fs := fs0
        logs := [⟨LogLevel.error, "The base destination path is not a valid directory."⟩]
        prints := ["The base destination path is not a valid directory."]
        restoreInvoked := false }
  else
    { fs := fs0
      logs := [⟨LogLevel.error, "Git is not installed. Please install Git to proceed."⟩]
      prints := []
      restoreInvoked := false }

/-- Remote environment in which the requested branch exists. -/
def okRemote : RemoteEnv := ⟨true, false, 0⟩

/-- Remote environment in which the requested branch is absent (ls-remote
succeeds with empty output). -/
def missingRemote : RemoteEnv := ⟨false, false, 0⟩

/-- Clone environment for a healthy clone producing a small working tree
with version-control metadata. -/
def okClone : CloneEnv :=
  { remote := okRemote, cloneFails := false, cloneCode := 0
    cloneTree := [⟨[".git", "config"], "meta"⟩, ⟨["src.py"], "code"⟩]
    cloneFailPartial := [] }

/-- Deployment environment in which every external operation succeeds on
its first attempt. -/
def baseEnv : DeployEnv :=
  { gitInstalled := true, baseDestIsDir := true, baseBackupIsDir := true
    clone := okClone
    backupEnv := ⟨fun _ => true, fun _ => 0⟩
    cleanOk := fun _ => true, cleanFailPartial := []
    metadataOk := true, metadataErrMsg := "PermissionError", metadataFailTemp := []
    finalCopyOk := true, finalCopyErrMsg := "CopyError", finalCopyFailDest := []
    tempRemoveOk := true, tempRemoveErrMsg := "RemoveError", tempRemoveFailTemp := []
    restoreOk := fun _ => true, restoreFailDest := none }

/-- A sample pre-deploy destination tree: a regular file, an ignore file
excluding log files, and a log file. -/
def sampleDest : Tree :=
  [⟨["app.txt"], "v1"⟩, ⟨[".gitignore"], "*.log"⟩, ⟨["debug.log"], "d"⟩]

/-- Deployment environment in which the requested branch does not exist on
the remote and everything else succeeds. -/
def branchMissingEnv : DeployEnv :=
  { baseEnv with clone := { okClone with remote := missingRemote } }

/-- Deployment environment in which the branch is missing and every
restore attempt fails, leaving the destination empty. -/
def restoreFailEnv : DeployEnv :=
  { baseEnv with
    clone := { okClone with remote := missingRemote }
    restoreOk := fun _ => false
    restoreFailDest := some [] }

/-- Deployment environment in which the git clone subprocess fails and
everything else succeeds. -/
def cloneFailEnv : DeployEnv :=
  { baseEnv with clone := { okClone with cloneFails := true, cloneCode := 1 } }

end GithubDeploy

namespace GithubDeploy

theorem excluded_pair_cons (a b : String) (rest : List String) (p : FsPath)
    (h : excluded [a, b] p = true) : excluded (a :: b :: rest) p = true := by
  simp only [excluded, matchesAnyPattern, List.any_eq_true] at h ⊢
  obtain ⟨c, hc, q, hq, hfm⟩ := h
  refine ⟨c, hc, q, ?_, hfm⟩
  simp only [List.mem_cons, List.not_mem_nil, or_false] at hq ⊢
  tauto

theorem restoreFilter_backupFilter (pats : List String) (t : Tree) :
    restoreFilter (backupFilter pats t) = backupFilter pats t := by
  unfold restoreFilter backupFilter copytree_ignore
  apply List.filter_eq_self.mpr
  intro f hf
  have hmem := List.of_mem_filter hf
  rw [Bool.not_eq_true'] at hmem ⊢
  by_cases hcon : excluded [".git", ".gitignore"] f.path = true
  · have h3 := excluded_pair_cons ".git" ".gitignore" pats f.path hcon
    rw [h3] at hmem
    exact Bool.noConfusion hmem
  · cases h2 : excluded [".git", ".gitignore"] f.path with
    | false => rfl
    | true => exact absurd h2 hcon

theorem backupGo_success (env : CaptureEnv) (src : Tree) (pats : List String) :
    ∀ (attempts : List Nat) (st : Option Tree),
      (backupGo env src pats attempts st).1 = true →
      (backupGo env src pats attempts st).2.1 = some (backupFilter pats src) := by
  intro attempts
  induction attempts with
  | nil => intro st h; simp [backupGo] at h
  | cons a rest ih =>
      intro st h
      by_cases hc : env.copyOk a = true
      · simp [backupGo, hc]
      · simp only [backupGo, hc, Bool.false_eq_true, if_false] at h ⊢
        exact ih _ h

theorem backupGo_first_event (env : CaptureEnv) (src : Tree) (pats : List String)
    (a : Nat) (rest : List Nat) (st : Option Tree) (hst : st.isSome = true) :
    (backupGo env src pats (a :: rest) st).2.2.head? = some CapEvent.deleteBackup := by
  by_cases hc : env.copyOk a = true <;> simp [backupGo, hc, hst]

theorem backup_artifacts_success (env : CaptureEnv) (src : Tree) (pats : List String)
    (backup0 : Option Tree) (h : (backup_artifacts env src pats backup0).1 = true) :
    (backup_artifacts env src pats backup0).2.1 = some (backupFilter pats src) :=
  backupGo_success env src pats (List.range 3) backup0 h

/-- CLAIM C5: retry_operation with maxAttempts 3 invokes an always-failing
operation exactly three times, with a sleep between consecutive attempts,
and returns the exhausted outcome; an operation that first succeeds on
attempt k returns success immediately after k+1 invocations. -/
theorem retry_operation_bounded_attempts :
    (∀ op : Nat → Bool, (∀ n, op n = false) →
      retry_operation op 3 = (false, [REvent.invoke 0, REvent.sleepDelay, REvent.invoke 1,
        REvent.sleepDelay, REvent.invoke 2, REvent.sleepDelay]) ∧
      invokeCount (retry_operation op 3).2 = 3) ∧
    (∀ op : Nat → Bool, ∀ k, k < 3 → op k = true → (∀ j, j < k → op j = false) →
      (retry_operation op 3).1 = true ∧ invokeCount (retry_operation op 3).2 = k + 1) := by
  have hr : List.range 3 = [0, 1, 2] := rfl
  constructor
  · intro op h
    constructor
    · simp [retry_operation, hr, retryGo, h]
    · simp [retry_operation, hr, retryGo, h, invokeCount]
  · intro op k hk hop hprev
    interval_cases k
    · constructor
      · simp [retry_operation, hr, retryGo, hop]
      · simp [retry_operation, hr, retryGo, hop, invokeCount]
    · have h0 : op 0 = false := hprev 0 (by omega)
      constructor
      · simp [retry_operation, hr, retryGo, h0, hop]
      · simp [retry_operation, hr, retryGo, h0, hop, invokeCount]
    · have h0 : op 0 = false := hprev 0 (by omega)
      have h1 : op 1 = false := hprev 1 (by omega)
      constructor
      · simp [retry_operation, hr, retryGo, h0, h1, hop]
      · simp [retry_operation, hr, retryGo, h0, h1, hop, invokeCount]

/-- Witness for C5: the always-failing operation is invoked three times and
exhausts; an operation succeeding on its second attempt returns success
with two invocations. -/
theorem retry_operation_bounded_attempts_witness :
    retry_operation (fun _ => false) 3 = (false, [REvent.invoke 0, REvent.sleepDelay,
      REvent.invoke 1, REvent.sleepDelay, REvent.invoke 2, REvent.sleepDelay]) ∧
    (retry_operation (fun n => n == 1) 3).1 = true ∧
    invokeCount (retry_operation (fun n => n == 1) 3).2 = 2 := by
  refine ⟨(retry_operation_bounded_attempts.1 (fun _ => false) (fun _ => rfl)).1, ?_, ?_⟩
  · exact (retry_operation_bounded_attempts.2 (fun n => n == 1) 1 (by omega) rfl
      (fun j hj => by simp [Nat.lt_one_iff.mp hj])).1
  · exact (retry_operation_bounded_attempts.2 (fun n => n == 1) 1 (by omega) rfl
      (fun j hj => by simp [Nat.lt_one_iff.mp hj])).2

set_option maxRecDepth 10000 in
/-- CLAIM C10: the repository name is the URL basename with every
occurrence of ".git" replaced by the empty string, not just a trailing
suffix stripped, so a basename with ".git" in the middle is deformed. -/
theorem repo_name_replaces_every_git_occurrence :
    repo_name_of "https://github.com/org/my.gitops" = "myops" ∧
    stripTrailingGitSuffix (basename "https://github.com/org/my.gitops") = "my.gitops" ∧
    repo_name_of "https://github.com/org/my.gitops" ≠ basename "https://github.com/org/my.gitops" ∧
    repo_name_of "https://github.com/org/app.git" = "app" := by
  refine ⟨rfl, rfl, ?_, rfl⟩
  decide

set_option maxRecDepth 40000 in
/-- CLAIM C4 (refuted, code bug): the credential is written to the log
sink.  When git ls-remote fails, branch_exists logs the stringified
CalledProcessError, whose command embeds the authenticated URL and hence
the token; a failed git clone logs the same way. -/
theorem credential_leaks_into_log_on_subprocess_failure :
    (((branch_exists ⟨false, true, 128⟩ "https://github.com/org/repo.git" "main"
        "SECRETTOKEN").2).any (fun r => strContains r.message "SECRETTOKEN")) = true ∧
    (((clone_repo ⟨⟨true, false, 0⟩, true, 1, [], []⟩ "https://github.com/org/repo.git" "main"
        "SECRETTOKEN" none "/srv/repo_temp").2.2).any
      (fun r => strContains r.message "SECRETTOKEN")) = true := by
  constructor <;> decide

/-- CLAIM C7: a successful capture leaves the backup directory holding
exactly the filtered copy of the current source tree, independent of any
prior snapshot, and when a prior snapshot exists its deletion is the very
first filesystem event of the capture. -/
theorem capture_keeps_single_snapshot :
    ∀ (env : CaptureEnv) (src : Tree) (pats : List String) (backup0 : Option Tree),
      ((backup_artifacts env src pats backup0).1 = true →
        (backup_artifacts env src pats backup0).2.1 = some (backupFilter pats src)) ∧
      (backup0.isSome = true →
        (backup_artifacts env src pats backup0).2.2.head? = some CapEvent.deleteBackup) := by
  intro env src pats backup0
  refine ⟨backup_artifacts_success env src pats backup0, ?_⟩
  intro h
  have hr : List.range 3 = 0 :: [1, 2] := rfl
  unfold backup_artifacts
  rw [hr]
  exact backupGo_first_event env src pats 0 [1, 2] backup0 h

/-- Witness for C7 at a concrete capture over an existing empty snapshot. -/
theorem capture_keeps_single_snapshot_witness :
    (backup_artifacts ⟨fun _ => true, fun _ => 0⟩ [⟨["a"], "1"⟩] [] (some [])).2.1 =
      some (backupFilter [] [⟨["a"], "1"⟩]) ∧
    (backup_artifacts ⟨fun _ => true, fun _ => 0⟩ [⟨["a"], "1"⟩] [] (some [])).2.2.head? =
      some CapEvent.deleteBackup :=
  ⟨(capture_keeps_single_snapshot ⟨fun _ => true, fun _ => 0⟩ [⟨["a"], "1"⟩] [] (some [])).1 rfl,
   (capture_keeps_single_snapshot ⟨fun _ => true, fun _ => 0⟩ [⟨["a"], "1"⟩] [] (some [])).2 rfl⟩

/-- CLAIM C8: during capture the pre-existing snapshot is deleted before
the first copy attempt, so a capture whose copies all fail leaves the
target with no usable snapshot: the concrete run below deletes the old
snapshot, fails all three copies, and ends with an empty backup. -/
theorem capture_not_atomic_on_failure :
    (∀ (env : CaptureEnv) (src : Tree) (pats : List String) (old : Tree),
      (backup_artifacts env src pats (some old)).2.2.head? = some CapEvent.deleteBackup) ∧
    backup_artifacts ⟨fun _ => false, fun _ => 0⟩ [⟨["a"], "x"⟩] [] (some [⟨["keep"], "v"⟩]) =
      (false, some [], [CapEvent.deleteBackup, CapEvent.copyAttempt, CapEvent.deleteBackup,
        CapEvent.copyAttempt, CapEvent.deleteBackup, CapEvent.copyAttempt]) := by
  constructor
  · intro env src pats old
    have hr : List.range 3 = 0 :: [1, 2] := rfl
    unfold backup_artifacts
    rw [hr]
    exact backupGo_first_event env src pats 0 [1, 2] (some old) rfl
  · rfl

theorem clone_repo_err_of (cenv : CloneEnv) (g b tk : String) (temp0 : Option Tree) (tp : String)
    (hf : cenv.remote.lsRemoteFails = true ∨ cenv.remote.branchOnRemote = false ∨
      cenv.cloneFails = true) :
    ((clone_repo cenv g b tk temp0 tp).1).isErr = true := by
  by_cases hls : cenv.remote.lsRemoteFails = true
  · simp [clone_repo, branch_exists, hls, CloneResult.isErr]
  · rcases hf with hf | hf | hf
    · exact absurd hf hls
    · simp [clone_repo, branch_exists, hls, hf, CloneResult.isErr]
    · by_cases hbr : cenv.remote.branchOnRemote = true
      · rcases temp0 with _ | t
        · simp [clone_repo, branch_exists, hls, hbr, hf, CloneResult.isErr]
        · by_cases ht : t.isEmpty = true
          · simp [clone_repo, branch_exists, hls, hbr, hf, ht, CloneResult.isErr]
          · simp [clone_repo, branch_exists, hls, hbr, hf, ht, CloneResult.isErr]
      · simp [clone_repo, branch_exists, hls, hbr, CloneResult.isErr]

theorem stagingAndSwap_fails (env : DeployEnv) (temp0 : Option Tree) (g b tk tp : String)
    (hf : env.clone.remote.lsRemoteFails = true ∨ env.clone.remote.branchOnRemote = false ∨
      env.clone.cloneFails = true ∨ env.metadataOk = false ∨ env.finalCopyOk = false ∨
      env.tempRemoveOk = false) :
    (stagingAndSwap env temp0 g b tk tp).err.isSome = true := by
  rcases hcr : (clone_repo env.clone g b tk temp0 tp).1 with _ | e
  case ok =>
    rcases hf with hf | hf | hf | hf | hf | hf
    · have h2 := clone_repo_err_of env.clone g b tk temp0 tp (Or.inl hf)
      rw [hcr] at h2
      exact Bool.noConfusion h2
    · have h2 := clone_repo_err_of env.clone g b tk temp0 tp (Or.inr (Or.inl hf))
      rw [hcr] at h2
      exact Bool.noConfusion h2
    · have h2 := clone_repo_err_of env.clone g b tk temp0 tp (Or.inr (Or.inr hf))
      rw [hcr] at h2
      exact Bool.noConfusion h2
    · simp [stagingAndSwap, hcr, hf]
    · by_cases hm : env.metadataOk = true
      · simp [stagingAndSwap, hcr, hm, hf]
      · simp [stagingAndSwap, hcr, hm]
    · by_cases hm : env.metadataOk = true
      · by_cases hfc : env.finalCopyOk = true
        · simp [stagingAndSwap, hcr, hm, hfc, hf]
        · simp [stagingAndSwap, hcr, hm, hfc]
      · simp [stagingAndSwap, hcr, hm]
  case err => simp [stagingAndSwap, hcr]

theorem rollbackStep_temp (env : DeployEnv) (fs1 : FsState) (bp dp : String) :
    (rollbackStep env fs1 bp dp).fs.temp = fs1.temp := by
  unfold rollbackStep
  rcases hb : fs1.backup with _ | bt <;> simp

theorem rollbackStep_backup (env : DeployEnv) (fs1 : FsState) (bp dp : String) :
    (rollbackStep env fs1 bp dp).fs.backup = fs1.backup := by
  unfold rollbackStep
  rcases hb : fs1.backup with _ | bt <;> simp [hb]

theorem rollbackStep_invoked (env : DeployEnv) (fs1 : FsState) (bp dp : String)
    (hb : fs1.backup.isSome = true) : (rollbackStep env fs1 bp dp).invoked = true := by
  obtain ⟨bt, hbt⟩ := Option.isSome_iff_exists.mp hb
  simp [rollbackStep, hbt]

theorem rollbackStep_some_success (env : DeployEnv) (fs1 : FsState) (bp dp : String)
    (bt : Tree) (j : Nat) (hb : fs1.backup = some bt)
    (hj : firstSuccess env.restoreOk 3 = some j) :
    rollbackStep env fs1 bp dp =
      { fs := { fs1 with dest := some (restoreFilter bt) }
        logs := [⟨LogLevel.info, "Starting restore_backup function."⟩,
                 ⟨LogLevel.info, "Backup restored from " ++ bp ++ " to " ++ dp⟩,
                 ⟨LogLevel.info, "Rollback completed. Backup reinstated."⟩]
        prints := ["Backup restored from " ++ bp ++ " to " ++ dp,
                   "Rollback completed. Backup reinstated."]
        invoked := true } := by
  simp [rollbackStep, hb, restore_backup, hj]

theorem deployExisting_rollback (env : DeployEnv) (fs0 : FsState) (destT : Tree)
    (g b tk dp bp tp : String) (pats : List String)
    (hB : (backup_artifacts env.backupEnv destT pats fs0.backup).1 = true)
    (hclean : (firstSuccess env.cleanOk 3).isSome = true)
    (e : String) (he : (stagingAndSwap env fs0.temp g b tk tp).err = some e)
    (j : Nat) (hj : firstSuccess env.restoreOk 3 = some j) :
    (deployExisting env fs0 destT g b tk dp bp tp pats).fs.dest =
      some (restoreFilter (backupFilter pats destT)) ∧
    (deployExisting env fs0 destT g b tk dp bp tp pats).restoreInvoked = true ∧
    ∀ r ∈ (stagingAndSwap env fs0.temp g b tk tp).logs,
      r ∈ (deployExisting env fs0 destT g b tk dp bp tp pats).logs := by
  have hb2 := backup_artifacts_success env.backupEnv destT pats fs0.backup hB
  simp only [deployExisting, hB, hclean, he, if_true]
  rw [hb2]
  rw [rollbackStep_some_success env _ bp dp (backupFilter pats destT) j rfl hj]
  refine ⟨rfl, rfl, ?_⟩
  intro r hr
  simp only [List.mem_append]
  exact Or.inl (Or.inl hr)

theorem deployExisting_fail_temp (env : DeployEnv) (fs0 : FsState) (destT : Tree)
    (g b tk dp bp tp : String) (pats : List String)
    (hB : (backup_artifacts env.backupEnv destT pats fs0.backup).1 = true)
    (hclean : (firstSuccess env.cleanOk 3).isSome = true)
    (e : String) (he : (stagingAndSwap env fs0.temp g b tk tp).err = some e) :
    (deployExisting env fs0 destT g b tk dp bp tp pats).fs.temp =
      (stagingAndSwap env fs0.temp g b tk tp).temp := by
  simp only [deployExisting, hB, hclean, he, if_true]
  rw [rollbackStep_temp]

theorem deployExisting_success (env : DeployEnv) (fs0 : FsState) (destT : Tree)
    (g b tk dp bp tp : String) (pats : List String)
    (hB : (backup_artifacts env.backupEnv destT pats fs0.backup).1 = true)
    (hclean : (firstSuccess env.cleanOk 3).isSome = true)
    (hnone : (stagingAndSwap env fs0.temp g b tk tp).err = none) :
    (deployExisting env fs0 destT g b tk dp bp tp pats).fs.temp =
      (stagingAndSwap env fs0.temp g b tk tp).temp ∧
    (deployExisting env fs0 destT g b tk dp bp tp pats).restoreInvoked = false := by
  simp only [deployExisting, hB, hclean, hnone, if_true]
  exact ⟨trivial, trivial⟩

theorem deployFresh_backup (env : DeployEnv) (fs0 : FsState) (g b tk dp bp tp : String) :
    (deployFresh env fs0 g b tk dp bp tp).fs.backup = fs0.backup := by
  unfold deployFresh
  rcases hsr : (stagingAndSwap env fs0.temp g b tk tp).err with _ | e
  · simp [hsr]
  · simp only [hsr]
    rw [rollbackStep_backup]

theorem deployFresh_no_restore (env : DeployEnv) (fs0 : FsState) (g b tk dp bp tp : String)
    (h : fs0.backup = none) :
    (deployFresh env fs0 g b tk dp bp tp).restoreInvoked = false := by
  unfold deployFresh
  rcases hsr : (stagingAndSwap env fs0.temp g b tk tp).err with _ | e
  · simp [hsr]
  · simp [hsr, rollbackStep, h]

theorem deployFresh_restore_invoked (env : DeployEnv) (fs0 : FsState) (g b tk dp bp tp : String)
    (herr : (stagingAndSwap env fs0.temp g b tk tp).err.isSome = true)
    (hb : fs0.backup.isSome = true) :
    (deployFresh env fs0 g b tk dp bp tp).restoreInvoked = true := by
  obtain ⟨e, he⟩ := Option.isSome_iff_exists.mp herr
  unfold deployFresh
  simp only [he]
  exact rollbackStep_invoked env _ bp dp hb

theorem deploy_repo_existing (env : DeployEnv) (fs0 : FsState) (destT : Tree)
    (g bd b tk bb : String) (hdest : fs0.dest = some destT)
    (hg : env.gitInstalled = true) (h1 : env.baseDestIsDir = true)
    (h2 : env.baseBackupIsDir = true) :
    deploy_repo env fs0 g bd b tk bb =
      deployExisting env fs0 destT g b tk (pathJoin bd (repo_name_of g))
        (pathJoin bb (repo_name_of g)) (pathJoin bd (repo_name_of g ++ "_temp"))
        (read_gitignore fs0.dest) := by
  simp [deploy_repo, hg, h1, h2, hdest]

theorem deploy_repo_fresh (env : DeployEnv) (fs0 : FsState) (g bd b tk bb : String)
    (hdest : fs0.dest = none) (hg : env.gitInstalled = true)
    (h1 : env.baseDestIsDir = true) (h2 : env.baseBackupIsDir = true) :
    deploy_repo env fs0 g bd b tk bb =
      deployFresh env fs0 g b tk (pathJoin bd (repo_name_of g))
        (pathJoin bb (repo_name_of g)) (pathJoin bd (repo_name_of g ++ "_temp")) := by
  simp [deploy_repo, hg, h1, h2, hdest]

/-- CLAIM C2: when the destination holds a prior deployment, the backup
succeeds, some staging or swapping step fails (a failed ls-remote, a
missing branch, a failed clone subprocess, a failed metadata removal, a
failed copy into the destination, or a failed removal of the staging
directory), and the retried restore succeeds, every file of the
pre-deploy tree not excluded by the loaded patterns or the implicit
exclusions is present, with identical content, in the post-rollback
destination. -/
theorem rollback_restores_nonexcluded_paths :
    ∀ (env : DeployEnv) (fs0 : FsState) (destT : Tree) (g bd b tk bb : String),
      fs0.dest = some destT →
      env.gitInstalled = true → env.baseDestIsDir = true → env.baseBackupIsDir = true →
      (backup_artifacts env.backupEnv destT (read_gitignore fs0.dest) fs0.backup).1 = true →
      (firstSuccess env.cleanOk 3).isSome = true →
      (env.clone.remote.lsRemoteFails = true ∨ env.clone.remote.branchOnRemote = false ∨
        env.clone.cloneFails = true ∨ env.metadataOk = false ∨ env.finalCopyOk = false ∨
        env.tempRemoveOk = false) →
      (firstSuccess env.restoreOk 3).isSome = true →
      ∃ finalTree,
        (deploy_repo env fs0 g bd b tk bb).fs.dest = some finalTree ∧
        ∀ f ∈ destT,
          excluded (".git" :: ".gitignore" :: read_gitignore fs0.dest) f.path = false →
          f ∈ finalTree := by
  intro env fs0 destT g bd b tk bb hdest hg h1 h2 hB hclean hf hrest
  obtain ⟨e, he⟩ := Option.isSome_iff_exists.mp
    (stagingAndSwap_fails env fs0.temp g b tk (pathJoin bd (repo_name_of g ++ "_temp")) hf)
  obtain ⟨j, hj⟩ := Option.isSome_iff_exists.mp hrest
  have hchar := deployExisting_rollback env fs0 destT g b tk (pathJoin bd (repo_name_of g))
    (pathJoin bb (repo_name_of g)) (pathJoin bd (repo_name_of g ++ "_temp"))
    (read_gitignore fs0.dest) hB hclean e he j hj
  refine ⟨backupFilter (read_gitignore fs0.dest) destT, ?_, ?_⟩
  · rw [deploy_repo_existing env fs0 destT g bd b tk bb hdest hg h1 h2, hchar.1,
      restoreFilter_backupFilter]
  · intro f hfm hex
    unfold backupFilter copytree_ignore
    refine List.mem_filter.mpr ⟨hfm, ?_⟩
    rw [hex]
    rfl

/-- Witness for C2: a one-file destination, a missing branch, and a
successful rollback leave the file in the restored destination. -/
theorem rollback_restores_nonexcluded_paths_witness :
    ∃ finalTree,
      (deploy_repo branchMissingEnv ⟨some [⟨["a.txt"], "v"⟩], none, none⟩
        "https://github.com/org/app.git" "/srv" "main" "TOK" "/bak").fs.dest = some finalTree ∧
      (⟨["a.txt"], "v"⟩ : FileEntry) ∈ finalTree := by
  obtain ⟨ft, hft, hmem⟩ := rollback_restores_nonexcluded_paths branchMissingEnv
    ⟨some [⟨["a.txt"], "v"⟩], none, none⟩ [⟨["a.txt"], "v"⟩] "https://github.com/org/app.git"
    "/srv" "main" "TOK" "/bak" rfl rfl rfl rfl rfl rfl (Or.inr (Or.inl rfl)) rfl
  exact ⟨ft, hft, hmem ⟨["a.txt"], "v"⟩ (by simp) (by decide)⟩

/-- CLAIM C1 (amended): with an existing destination and a branch that is
absent remotely, the run fails with the branch-not-found error and rolls
back; the destination is first emptied and then restored from the
snapshot, so its final contents are the pre-deploy tree minus the excluded
paths, not necessarily its exact pre-deploy contents. -/
theorem deploy_branch_missing_rolls_back_filtered :
    ∀ (env : DeployEnv) (fs0 : FsState) (destT : Tree) (g bd b tk bb : String),
      fs0.dest = some destT →
      env.gitInstalled = true → env.baseDestIsDir = true → env.baseBackupIsDir = true →
      env.clone.remote.lsRemoteFails = false →
      env.clone.remote.branchOnRemote = false →
      (backup_artifacts env.backupEnv destT (read_gitignore fs0.dest) fs0.backup).1 = true →
      (firstSuccess env.cleanOk 3).isSome = true →
      (firstSuccess env.restoreOk 3).isSome = true →
      (deploy_repo env fs0 g bd b tk bb).fs.dest =
        some (backupFilter (read_gitignore fs0.dest) destT) ∧
      (deploy_repo env fs0 g bd b tk bb).restoreInvoked = true ∧
      (⟨LogLevel.error, "Error: The branch " ++ sq ++ b ++ sq ++
        " does not exist in the remote repository."⟩ : LogRecord) ∈
        (deploy_repo env fs0 g bd b tk bb).logs := by
  intro env fs0 destT g bd b tk bb hdest hg h1 h2 hls hbr hB hclean hrest
  obtain ⟨j, hj⟩ := Option.isSome_iff_exists.mp hrest
  have hsr : stagingAndSwap env fs0.temp g b tk (pathJoin bd (repo_name_of g ++ "_temp")) =
      { err := some ("The branch " ++ sq ++ b ++ sq ++ " does not exist in the remote repository.")
        dest := some []
        temp := fs0.temp
        logs := [⟨LogLevel.info, "Starting clone_repo function."⟩,
          ⟨LogLevel.info, "Starting branch_exists function."⟩,
          ⟨LogLevel.error, "Error: The branch " ++ sq ++ b ++ sq ++
            " does not exist in the remote repository."⟩] } := by
    simp [stagingAndSwap, clone_repo, branch_exists, hls, hbr]
  have he : (stagingAndSwap env fs0.temp g b tk (pathJoin bd (repo_name_of g ++ "_temp"))).err =
      some ("The branch " ++ sq ++ b ++ sq ++ " does not exist in the remote repository.") := by
    rw [hsr]
  have hchar := deployExisting_rollback env fs0 destT g b tk (pathJoin bd (repo_name_of g))
    (pathJoin bb (repo_name_of g)) (pathJoin bd (repo_name_of g ++ "_temp"))
    (read_gitignore fs0.dest) hB hclean _ he j hj
  have hred := deploy_repo_existing env fs0 destT g bd b tk bb hdest hg h1 h2
  refine ⟨?_, ?_, ?_⟩
  · rw [hred, hchar.1, restoreFilter_backupFilter]
  · rw [hred]; exact hchar.2.1
  · rw [hred]
    apply hchar.2.2
    rw [hsr]
    simp

set_option maxRecDepth 100000 in
/-- CLAIM C1 (refuted): a run against an existing destination with a
missing branch does mutate the destination: the branch check happens only
inside clone_repo, after the destination has been emptied, and the rolled
back contents lack the excluded files, so the final destination differs
from the pre-deploy one even though the branch-not-found error was
reported. -/
theorem deploy_branch_missing_changes_destination :
    (deploy_repo branchMissingEnv ⟨some sampleDest, none, none⟩ "https://github.com/org/app.git"
      "/srv" "feature" "TOK" "/bak").fs.dest ≠ some sampleDest ∧
    (⟨LogLevel.error, "Error: The branch " ++ sq ++ "feature" ++ sq ++
      " does not exist in the remote repository."⟩ : LogRecord) ∈
      (deploy_repo branchMissingEnv ⟨some sampleDest, none, none⟩ "https://github.com/org/app.git"
        "/srv" "feature" "TOK" "/bak").logs := by
  constructor
  · decide
  · decide

set_option maxRecDepth 100000 in
/-- Witness for the amended C1 at a concrete run: the destination ends as
the filtered pre-deploy tree and restore was invoked. -/
theorem deploy_branch_missing_rolls_back_filtered_witness :
    (deploy_repo branchMissingEnv ⟨some sampleDest, none, none⟩ "https://github.com/org/app.git"
      "/srv" "feature" "TOK" "/bak").fs.dest =
      some (backupFilter (read_gitignore (some sampleDest)) sampleDest) ∧
    (deploy_repo branchMissingEnv ⟨some sampleDest, none, none⟩ "https://github.com/org/app.git"
      "/srv" "feature" "TOK" "/bak").restoreInvoked = true := by
  have h := deploy_branch_missing_rolls_back_filtered branchMissingEnv
    ⟨some sampleDest, none, none⟩ sampleDest "https://github.com/org/app.git" "/srv" "feature"
    "TOK" "/bak" rfl rfl rfl rfl rfl rfl (by decide) rfl rfl
  exact ⟨h.1, h.2.1⟩

set_option maxRecDepth 100000 in
/-- CLAIM C3 (code bug): after a failed deployment whose retried restore
also fails, the run still prints the rollback-completed success message
right after the restore-failure message, because deploy_repo prints it
unconditionally after calling restore_backup; both the original deployment
error and the restore error do reach the log. -/
theorem rollback_completed_printed_despite_failed_restore :
    (deploy_repo restoreFailEnv ⟨some [⟨["app.txt"], "v1"⟩], none, none⟩
      "https://github.com/org/app.git" "/srv" "feature" "TOK" "/bak").prints =
      ["Deployment failed. Initiating rollback.",
       "Error restoring backup after multiple attempts.",
       "Rollback completed. Backup reinstated."] ∧
    (⟨LogLevel.error, "Deployment failed: The branch " ++ sq ++ "feature" ++ sq ++
      " does not exist in the remote repository.. Initiating rollback."⟩ : LogRecord) ∈
      (deploy_repo restoreFailEnv ⟨some [⟨["app.txt"], "v1"⟩], none, none⟩
        "https://github.com/org/app.git" "/srv" "feature" "TOK" "/bak").logs ∧
    (⟨LogLevel.error, "Error restoring backup after multiple attempts."⟩ : LogRecord) ∈
      (deploy_repo restoreFailEnv ⟨some [⟨["app.txt"], "v1"⟩], none, none⟩
        "https://github.com/org/app.git" "/srv" "feature" "TOK" "/bak").logs := by
  refine ⟨rfl, ?_, ?_⟩ <;> decide

/-- CLAIM C6 (refuted): a failing first-time deploy can still invoke
restore, because line 206 only checks that a directory exists at the
backup path; with a stale backup from an earlier run, the failed fresh
deploy restores it into the destination. -/
theorem deploy_fresh_failure_restores_stale_backup :
    (deploy_repo cloneFailEnv ⟨none, some [⟨["old.txt"], "stale"⟩], none⟩
      "https://github.com/org/app.git" "/srv" "main" "TOK" "/bak").restoreInvoked = true ∧
    (deploy_repo cloneFailEnv ⟨none, some [⟨["old.txt"], "stale"⟩], none⟩
      "https://github.com/org/app.git" "/srv" "main" "TOK" "/bak").fs.dest =
      some [⟨["old.txt"], "stale"⟩] := by
  exact ⟨rfl, rfl⟩

/-- CLAIM C6 (amended): a first-time deploy never creates a backup, and on
failure restore runs exactly when a directory already exists at the backup
path: never when the backup path is empty, always when a stale backup
directory is present and any staging or swap step fails (failed ls-remote,
missing branch, failed clone subprocess, failed metadata removal, failed
copy into the destination, or failed removal of the staging directory). -/
theorem deploy_fresh_no_backup_restore_needs_existing_dir :
    ∀ (env : DeployEnv) (fs0 : FsState) (g bd b tk bb : String),
      fs0.dest = none →
      env.gitInstalled = true → env.baseDestIsDir = true → env.baseBackupIsDir = true →
      ((deploy_repo env fs0 g bd b tk bb).fs.backup = fs0.backup) ∧
      (fs0.backup = none → (deploy_repo env fs0 g bd b tk bb).restoreInvoked = false) ∧
      ((env.clone.remote.lsRemoteFails = true ∨ env.clone.remote.branchOnRemote = false ∨
          env.clone.cloneFails = true ∨ env.metadataOk = false ∨ env.finalCopyOk = false ∨
          env.tempRemoveOk = false) →
        fs0.backup.isSome = true →
        (deploy_repo env fs0 g bd b tk bb).restoreInvoked = true) := by
  intro env fs0 g bd b tk bb hdest hg h1 h2
  have hred := deploy_repo_fresh env fs0 g bd b tk bb hdest hg h1 h2
  refine ⟨?_, ?_, ?_⟩
  · rw [hred]; exact deployFresh_backup env fs0 g b tk _ _ _
  · intro hb; rw [hred]; exact deployFresh_no_restore env fs0 g b tk _ _ _ hb
  · intro hf hb
    rw [hred]
    exact deployFresh_restore_invoked env fs0 g b tk _ _ _
      (stagingAndSwap_fails env fs0.temp g b tk _ hf) hb

/-- Witness for the amended C6: a failed fresh deploy leaves the backup
directory untouched and restores the stale snapshot; with no directory at
the backup path, no restore runs. -/
theorem deploy_fresh_no_backup_restore_needs_existing_dir_witness :
    (deploy_repo cloneFailEnv ⟨none, some [⟨["old.txt"], "stale"⟩], none⟩
      "https://github.com/org/app.git" "/srv" "main" "TOK" "/bak").fs.backup =
      some [⟨["old.txt"], "stale"⟩] ∧
    (deploy_repo cloneFailEnv ⟨none, none, none⟩ "https://github.com/org/app.git"
      "/srv" "main" "TOK" "/bak").restoreInvoked = false ∧
    (deploy_repo cloneFailEnv ⟨none, some [⟨["old.txt"], "stale"⟩], none⟩
      "https://github.com/org/app.git" "/srv" "main" "TOK" "/bak").restoreInvoked = true := by
  refine ⟨?_, ?_, ?_⟩
  · exact (deploy_fresh_no_backup_restore_needs_existing_dir cloneFailEnv
      ⟨none, some [⟨["old.txt"], "stale"⟩], none⟩ "https://github.com/org/app.git" "/srv" "main"
      "TOK" "/bak" rfl rfl rfl rfl).1.trans rfl
  · exact (deploy_fresh_no_backup_restore_needs_existing_dir cloneFailEnv ⟨none, none, none⟩
      "https://github.com/org/app.git" "/srv" "main" "TOK" "/bak" rfl rfl rfl rfl).2.1 rfl
  · exact (deploy_fresh_no_backup_restore_needs_existing_dir cloneFailEnv
      ⟨none, some [⟨["old.txt"], "stale"⟩], none⟩ "https://github.com/org/app.git" "/srv" "main"
      "TOK" "/bak" rfl rfl rfl rfl).2.2 (Or.inr (Or.inr (Or.inl rfl))) rfl

/-- CLAIM C9: a clone into an existing nonempty staging directory always
fails; on any failure after the clone begins (the clone subprocess itself
failing after the staging directory was created by makedirs, a failed
metadata removal, a failed copy into the destination, or a failed removal
of the staging directory), the staging directory is left on disk; and
only the fully successful path removes the staging directory. -/
theorem staging_left_behind_on_failure :
    (∀ (cenv : CloneEnv) (g b tk tp : String) (t : Tree), t ≠ [] →
      ((clone_repo cenv g b tk (some t) tp).1).isErr = true) ∧
    (∀ (env : DeployEnv) (fs0 : FsState) (destT : Tree) (g bd b tk bb : String),
      fs0.dest = some destT → env.gitInstalled = true → env.baseDestIsDir = true →
      env.baseBackupIsDir = true →
      (backup_artifacts env.backupEnv destT (read_gitignore fs0.dest) fs0.backup).1 = true →
      (firstSuccess env.cleanOk 3).isSome = true →
      env.clone.remote.lsRemoteFails = false → env.clone.remote.branchOnRemote = true →
      fs0.temp = none →
      (env.clone.cloneFails = true ∨ env.metadataOk = false ∨ env.finalCopyOk = false ∨
        env.tempRemoveOk = false) →
      ((deploy_repo env fs0 g bd b tk bb).fs.temp).isSome = true) ∧
    (∀ (env : DeployEnv) (fs0 : FsState) (destT : Tree) (g bd b tk bb : String),
      fs0.dest = some destT → env.gitInstalled = true → env.baseDestIsDir = true →
      env.baseBackupIsDir = true →
      (backup_artifacts env.backupEnv destT (read_gitignore fs0.dest) fs0.backup).1 = true →
      (firstSuccess env.cleanOk 3).isSome = true →
      env.clone.remote.lsRemoteFails = false → env.clone.remote.branchOnRemote = true →
      env.clone.cloneFails = false → fs0.temp = none →
      env.metadataOk = true → env.finalCopyOk = true → env.tempRemoveOk = true →
      (deploy_repo env fs0 g bd b tk bb).fs.temp = none) := by
  refine ⟨?_, ?_, ?_⟩
  · intro cenv g b tk tp t ht
    by_cases hbx : (branch_exists cenv.remote g b tk).1 = true
    · have hne : t.isEmpty = false := by
        cases t with
        | nil => exact absurd rfl ht
        | cons x xs => rfl
      simp [clone_repo, hbx, hne, CloneResult.isErr]
    · simp [clone_repo, hbx, CloneResult.isErr]
  · intro env fs0 destT g bd b tk bb hdest hg h1 h2 hB hclean hls hbr htemp hfail
    have hred := deploy_repo_existing env fs0 destT g bd b tk bb hdest hg h1 h2
    by_cases hcfb : env.clone.cloneFails = true
    case pos =>
      have hsome : (stagingAndSwap env fs0.temp g b tk
          (pathJoin bd (repo_name_of g ++ "_temp"))).err.isSome = true ∧
          ((stagingAndSwap env fs0.temp g b tk
            (pathJoin bd (repo_name_of g ++ "_temp"))).temp).isSome = true := by
        simp [stagingAndSwap, clone_repo, branch_exists, hls, hbr, htemp, hcfb]
      obtain ⟨e, he⟩ := Option.isSome_iff_exists.mp hsome.1
      rw [hred, deployExisting_fail_temp env fs0 destT g b tk (pathJoin bd (repo_name_of g))
        (pathJoin bb (repo_name_of g)) (pathJoin bd (repo_name_of g ++ "_temp"))
        (read_gitignore fs0.dest) hB hclean e he]
      exact hsome.2
    case neg =>
    have hcf : env.clone.cloneFails = false := by
      cases h3 : env.clone.cloneFails
      · rfl
      · exact absurd h3 hcfb
    rcases hfail with hf | hm | hfc | htr
    · exact absurd hf hcfb
    · have hsome : (stagingAndSwap env fs0.temp g b tk
          (pathJoin bd (repo_name_of g ++ "_temp"))).err.isSome = true ∧
          ((stagingAndSwap env fs0.temp g b tk
            (pathJoin bd (repo_name_of g ++ "_temp"))).temp).isSome = true := by
        simp [stagingAndSwap, clone_repo, branch_exists, hls, hbr, hcf, htemp, hm]
      obtain ⟨e, he⟩ := Option.isSome_iff_exists.mp hsome.1
      rw [hred, deployExisting_fail_temp env fs0 destT g b tk (pathJoin bd (repo_name_of g))
        (pathJoin bb (repo_name_of g)) (pathJoin bd (repo_name_of g ++ "_temp"))
        (read_gitignore fs0.dest) hB hclean e he]
      exact hsome.2
    · by_cases hm : env.metadataOk = true
      · have hsome : (stagingAndSwap env fs0.temp g b tk
            (pathJoin bd (repo_name_of g ++ "_temp"))).err.isSome = true ∧
            ((stagingAndSwap env fs0.temp g b tk
              (pathJoin bd (repo_name_of g ++ "_temp"))).temp).isSome = true := by
          simp [stagingAndSwap, clone_repo, branch_exists, hls, hbr, hcf, htemp, hm, hfc]
        obtain ⟨e, he⟩ := Option.isSome_iff_exists.mp hsome.1
        rw [hred, deployExisting_fail_temp env fs0 destT g b tk (pathJoin bd (repo_name_of g))
          (pathJoin bb (repo_name_of g)) (pathJoin bd (repo_name_of g ++ "_temp"))
          (read_gitignore fs0.dest) hB hclean e he]
        exact hsome.2
      · have hsome : (stagingAndSwap env fs0.temp g b tk
            (pathJoin bd (repo_name_of g ++ "_temp"))).err.isSome = true ∧
            ((stagingAndSwap env fs0.temp g b tk
              (pathJoin bd (repo_name_of g ++ "_temp"))).temp).isSome = true := by
          simp [stagingAndSwap, clone_repo, branch_exists, hls, hbr, hcf, htemp, hm]
        obtain ⟨e, he⟩ := Option.isSome_iff_exists.mp hsome.1
        rw [hred, deployExisting_fail_temp env fs0 destT g b tk (pathJoin bd (repo_name_of g))
          (pathJoin bb (repo_name_of g)) (pathJoin bd (repo_name_of g ++ "_temp"))
          (read_gitignore fs0.dest) hB hclean e he]
        exact hsome.2
    · by_cases hm : env.metadataOk = true
      · by_cases hfc : env.finalCopyOk = true
        · have hsome : (stagingAndSwap env fs0.temp g b tk
              (pathJoin bd (repo_name_of g ++ "_temp"))).err.isSome = true ∧
              ((stagingAndSwap env fs0.temp g b tk
                (pathJoin bd (repo_name_of g ++ "_temp"))).temp).isSome = true := by
            simp [stagingAndSwap, clone_repo, branch_exists, hls, hbr, hcf, htemp, hm, hfc, htr]
          obtain ⟨e, he⟩ := Option.isSome_iff_exists.mp hsome.1
          rw [hred, deployExisting_fail_temp env fs0 destT g b tk (pathJoin bd (repo_name_of g))
            (pathJoin bb (repo_name_of g)) (pathJoin bd (repo_name_of g ++ "_temp"))
            (read_gitignore fs0.dest) hB hclean e he]
          exact hsome.2
        · have hsome : (stagingAndSwap env fs0.temp g b tk
              (pathJoin bd (repo_name_of g ++ "_temp"))).err.isSome = true ∧
              ((stagingAndSwap env fs0.temp g b tk
                (pathJoin bd (repo_name_of g ++ "_temp"))).temp).isSome = true := by
            simp [stagingAndSwap, clone_repo, branch_exists, hls, hbr, hcf, htemp, hm, hfc]
          obtain ⟨e, he⟩ := Option.isSome_iff_exists.mp hsome.1
          rw [hred, deployExisting_fail_temp env fs0 destT g b tk (pathJoin bd (repo_name_of g))
            (pathJoin bb (repo_name_of g)) (pathJoin bd (repo_name_of g ++ "_temp"))
            (read_gitignore fs0.dest) hB hclean e he]
          exact hsome.2
      · have hsome : (stagingAndSwap env fs0.temp g b tk
            (pathJoin bd (repo_name_of g ++ "_temp"))).err.isSome = true ∧
            ((stagingAndSwap env fs0.temp g b tk
              (pathJoin bd (repo_name_of g ++ "_temp"))).temp).isSome = true := by
          simp [stagingAndSwap, clone_repo, branch_exists, hls, hbr, hcf, htemp, hm]
        obtain ⟨e, he⟩ := Option.isSome_iff_exists.mp hsome.1
        rw [hred, deployExisting_fail_temp env fs0 destT g b tk (pathJoin bd (repo_name_of g))
          (pathJoin bb (repo_name_of g)) (pathJoin bd (repo_name_of g ++ "_temp"))
          (read_gitignore fs0.dest) hB hclean e he]
        exact hsome.2
  · intro env fs0 destT g bd b tk bb hdest hg h1 h2 hB hclean hls hbr hcf htemp hm hfc htr
    have hred := deploy_repo_existing env fs0 destT g bd b tk bb hdest hg h1 h2
    have hsr : (stagingAndSwap env fs0.temp g b tk
        (pathJoin bd (repo_name_of g ++ "_temp"))).err = none ∧
        (stagingAndSwap env fs0.temp g b tk
          (pathJoin bd (repo_name_of g ++ "_temp"))).temp = none := by
      simp [stagingAndSwap, clone_repo, branch_exists, hls, hbr, hcf, htemp, hm, hfc, htr]
    rw [hred, (deployExisting_success env fs0 destT g b tk (pathJoin bd (repo_name_of g))
      (pathJoin bb (repo_name_of g)) (pathJoin bd (repo_name_of g ++ "_temp"))
      (read_gitignore fs0.dest) hB hclean hsr.1).1, hsr.2]

/-- Witness for C9: the clone into a nonempty leftover staging directory
fails, a mid-clone subprocess failure leaves the makedirs-created staging
directory on disk, a metadata-removal failure after a good clone leaves
the staging directory on disk, and a fully successful run removes it. -/
theorem staging_left_behind_on_failure_witness :
    ((clone_repo okClone "https://github.com/org/app.git" "main" "TOK"
      (some [⟨["f"], "x"⟩]) "/srv/app_temp").1).isErr = true ∧
    ((deploy_repo cloneFailEnv ⟨some [⟨["a"], "v"⟩], none, none⟩
      "https://github.com/org/app.git" "/srv" "main" "TOK" "/bak").fs.temp).isSome = true ∧
    ((deploy_repo { baseEnv with metadataOk := false } ⟨some [⟨["a"], "v"⟩], none, none⟩
      "https://github.com/org/app.git" "/srv" "main" "TOK" "/bak").fs.temp).isSome = true ∧
    (deploy_repo baseEnv ⟨some [⟨["a"], "v"⟩], none, none⟩ "https://github.com/org/app.git"
      "/srv" "main" "TOK" "/bak").fs.temp = none := by
  refine ⟨?_, ?_, ?_, ?_⟩
  · exact staging_left_behind_on_failure.1 okClone "https://github.com/org/app.git" "main" "TOK"
      "/srv/app_temp" [⟨["f"], "x"⟩] (by decide)
  · exact staging_left_behind_on_failure.2.1 cloneFailEnv
      ⟨some [⟨["a"], "v"⟩], none, none⟩ [⟨["a"], "v"⟩] "https://github.com/org/app.git" "/srv"
      "main" "TOK" "/bak" rfl rfl rfl rfl rfl rfl rfl rfl rfl (Or.inl rfl)
  · exact staging_left_behind_on_failure.2.1 { baseEnv with metadataOk := false }
      ⟨some [⟨["a"], "v"⟩], none, none⟩ [⟨["a"], "v"⟩] "https://github.com/org/app.git" "/srv"
      "main" "TOK" "/bak" rfl rfl rfl rfl rfl rfl rfl rfl rfl (Or.inr (Or.inl rfl))
  · exact staging_left_behind_on_failure.2.2 baseEnv ⟨some [⟨["a"], "v"⟩], none, none⟩
      [⟨["a"], "v"⟩] "https://github.com/org/app.git" "/srv" "main" "TOK" "/bak"
      rfl rfl rfl rfl rfl rfl rfl rfl rfl rfl rfl rfl rfl

end GithubDeploy
